import Mathlib

/-
Verification of the API gateway routing/authentication pipeline and the
message-bus publish/subscribe contract of the Coursework-AIS repository.
The definitions below are a shallow embedding of
src/api-gateway-service/main.py and src/api-gateway-service/shared/messaging.py.
String primitives of the host language (startswith, lstrip, split, slicing)
are embedded as structurally recursive operations on the character list of
a string, so that every definition evaluates inside the proof checker.
-/

set_option maxHeartbeats 1000000

-- =====================  String primitives  =====================

-- s.startswith(t)
def strStartsWith (s pre : String) : Bool :=
  pre.data.isPrefixOf s.data

-- s.lstrip("/"): remove every leading slash.
def lstripSlash (s : String) : String :=
  String.mk (s.data.dropWhile (fun c => c = '/'))

-- s[n:]: drop the first n characters.
def strDrop (s : String) (n : Nat) : String :=
  String.mk (s.data.drop n)

-- s.split(" "): split on every single space, keeping empty parts.
def splitOnSpace (s : List Char) (cur : List Char) : List String :=
  match s with
  | [] => [String.mk cur.reverse]
  | c :: rest =>
    if c = ' ' then String.mk cur.reverse :: splitOnSpace rest []
    else splitOnSpace rest (c :: cur)

-- =====================  Gateway data model  =====================

-- Identity claims extracted from a verified bearer token
-- (the dict returned by AuthUtils.verify_token: sub, email, role).
structure Claims where
  sub : Nat
  email : String
  role : String
deriving Repr, DecidableEq

-- The four backend services of the route table in main.py.
inductive Route where
  | auth
  | payment
  | financing
  | insurance
deriving Repr, DecidableEq

-- Result of one pass through gateway_handler: the health short-circuit,
-- an error JSONResponse (status code plus the "detail" field), or the
-- forwarding step being reached with the resolved backend and stripped path.
inductive GatewayResult where
  | healthOk
  | response (status : Nat) (detail : String)
  | forward (route : Route) (forwardPath : String)
deriving Repr, DecidableEq

-- One inbound request, as far as routing/authentication observes it:
-- the FastAPI-captured {path} and the Authorization header (none if absent).
structure GRequest where
  rawPath : String
  authorization : Option String
deriving Repr

-- PUBLIC_ENDPOINTS from main.py, in source order.
def PUBLIC_ENDPOINTS : List String :=
  [ ""
  , "auth/"
  , "auth/register"
  , "auth/token"
  , "auth/refresh"
  , "auth/health"
  , "auth/stats"
  , "payment/"
  , "payment/health"
  , "payment/stats"
  , "financing/"
  , "financing/health"
  , "financing/stats"
  , "insurance/"
  , "insurance/health"
  , "insurance/stats"
  , "health" ]

-- path.lstrip("/") at the top of gateway_handler.
def normalizePath (p : String) : String :=
  lstripSlash p

-- The loop over PUBLIC_ENDPOINTS in gateway_handler:
-- match when path == endpoint or path.startswith(endpoint + "/").
def isPublicEndpointMatch (path : String) : Bool :=
  PUBLIC_ENDPOINTS.any (fun e => path = e || strStartsWith path (e ++ "/"))

-- authorization.split(" ")[1]: the token part of "Bearer <token>".
def extractBearerToken (a : String) : String :=
  (splitOnSpace a.data []).getD 1 ""

-- check_permissions(user_data, required_roles) from main.py.
def check_permissions (user_data : Option Claims) (required_roles : List String) : Bool :=
  match user_data with
  | none => false
  | some u => if required_roles = [] then true else required_roles.contains u.role

-- The route resolution performed by the if/elif chain of gateway_handler:
-- first startswith match wins; the forward path is the Python slice
-- path[len(p):] for the matched literal p.
def routeOf (path : String) : Option (Route × String) :=
  if strStartsWith path "auth/" then some (Route.auth, strDrop path 5)
  else if strStartsWith path "payment/" then some (Route.payment, strDrop path 8)
  else if strStartsWith path "financing/" then some (Route.financing, strDrop path 10)
  else if strStartsWith path "insurance/" then some (Route.insurance, strDrop path 10)
  else none

-- The routing section of gateway_handler (lines 146-184): auth has no role
-- check; payment, financing and insurance run check_permissions unless the
-- forward path is "health" or "".
def routeAndForward (user_data : Option Claims) (path : String) : GatewayResult :=
  if strStartsWith path "auth/" then
    GatewayResult.forward Route.auth (strDrop path 5)
  else if strStartsWith path "payment/" then
    let fp := strDrop path 8
    if (¬ (fp = "health" ∨ fp = "")) ∧ check_permissions user_data ["client", "manager", "admin"] = false then
      GatewayResult.response 403 "Insufficient permissions"
    else GatewayResult.forward Route.payment fp
  else if strStartsWith path "financing/" then
    let fp := strDrop path 10
    if (¬ (fp = "health" ∨ fp = "")) ∧ check_permissions user_data ["client", "manager", "admin"] = false then
      GatewayResult.response 403 "Insufficient permissions"
    else GatewayResult.forward Route.financing fp
  else if strStartsWith path "insurance/" then
    let fp := strDrop path 10
    if (¬ (fp = "health" ∨ fp = "")) ∧ check_permissions user_data ["client", "manager", "admin"] = false then
      GatewayResult.response 403 "Insufficient permissions"
    else GatewayResult.forward Route.insurance fp
  else
    GatewayResult.response 404 "Service not found"

-- gateway_handler from main.py, parameterized by the token verifier
-- (AuthUtils.verify_token, which returns a claims dict or None).
def gateway_handler (verify : String → Option Claims) (req : GRequest) : GatewayResult :=
  let path := normalizePath req.rawPath
  if path = "health" then GatewayResult.healthOk
  else if isPublicEndpointMatch path = false then
    match req.authorization with
    | none => GatewayResult.response 401 "Authentication required"
    | some a =>
      if strStartsWith a "Bearer " = false then
        GatewayResult.response 401 "Authentication required"
      else
        match verify (extractBearerToken a) with
        | none => GatewayResult.response 401 "Invalid token"
        | some u => routeAndForward (some u) path
  else
    let user_data : Option Claims :=
      match req.authorization with
      | some a => if strStartsWith a "Bearer " then verify (extractBearerToken a) else none
      | none => none
    routeAndForward user_data path

-- =====================  Forwarder (lines 186-225)  =====================

-- What the downstream transport produces for one forwarding attempt:
-- a timeout (httpx.TimeoutException), a transport failure
-- (httpx.RequestError, carrying str(e)), any other raised failure, or an
-- actual downstream response.  A response carries its status code, the
-- content-type header (absent headers read as ""), the raw text body, and
-- the result of response.json() — Except.error is a raised parse failure.
inductive DownstreamOutcome where
  | timeout
  | requestError (cause : String)
  | otherError (cause : String)
  | response (status : Nat) (contentType : String) (textBody : String) (jsonBody : Except String String)
deriving Repr

-- Body of the JSONResponse built by the forwarding code: either the parsed
-- structured payload relayed as-is, the raw text, or an error object with a
-- "detail" field.
inductive RelayBody where
  | structured (json : String)
  | rawText (t : String)
  | detail (d : String)
deriving Repr, DecidableEq

structure RelayResponse where
  status : Nat
  body : RelayBody
deriving Repr, DecidableEq

-- The try/except block around the downstream call in gateway_handler:
-- a response is relayed with its own status, as JSON when the content type
-- starts with "application/json" (a parse failure raised there lands in the
-- generic except branch), as text otherwise; TimeoutException maps to 504,
-- RequestError to 502, anything else to 500.
def forwardResult (o : DownstreamOutcome) : RelayResponse :=
  match o with
  | DownstreamOutcome.timeout =>
    ⟨504, RelayBody.detail "Service timeout"⟩
  | DownstreamOutcome.requestError c =>
    ⟨502, RelayBody.detail ("Service unavailable: " ++ c)⟩
  | DownstreamOutcome.otherError c =>
    ⟨500, RelayBody.detail ("Internal error: " ++ c)⟩
  | DownstreamOutcome.response st ct txt js =>
    if strStartsWith ct "application/json" then
      match js with
      | Except.ok j => ⟨st, RelayBody.structured j⟩
      | Except.error e => ⟨500, RelayBody.detail ("Internal error: " ++ e)⟩
    else ⟨st, RelayBody.rawText txt⟩

-- =====================  Event bus (shared/messaging.py)  =====================

-- The event dict built inside publish_event: the id is the string
-- f"{exchange}.{routing_key}.{timestamp}", the type is the routing key.
def mkEventId (exchange routing_key tsStamp : String) : String :=
  exchange ++ "." ++ routing_key ++ "." ++ tsStamp

structure EventEnvelope where
  event_id : String
  event_type : String
  timestamp : String
  payload : String
deriving Repr, DecidableEq

-- The envelope as publish_event constructs it, given the two clock reads
-- (datetime.utcnow().timestamp() and .isoformat()).
def mkEnvelope (exchange routing_key tsStamp tsIso payload : String) : EventEnvelope :=
  ⟨mkEventId exchange routing_key tsStamp, routing_key, tsIso, payload⟩

-- Transport-level fate of one publish call: connecting, declaring the
-- exchange or basic_publish may each raise, or the message goes out.
inductive PublishTransport where
  | connectError (e : String)
  | declareError (e : String)
  | publishError (e : String)
  | delivered
deriving Repr, DecidableEq

-- Everything externally visible after publish_event returns: the envelope
-- that reached the broker (none if the attempt failed) and the line printed
-- by the except branch (none if no failure).
structure PublishEffect where
  published : Option EventEnvelope
  loggedError : Option String
deriving Repr, DecidableEq

-- The body of the try block: each transport step may raise (Except.error).
def publish_event_attempt (t : PublishTransport) (exchange routing_key tsStamp tsIso payload : String) :
    Except String EventEnvelope :=
  match t with
  | PublishTransport.connectError e => Except.error e
  | PublishTransport.declareError e => Except.error e
  | PublishTransport.publishError e => Except.error e
  | PublishTransport.delivered => Except.ok (mkEnvelope exchange routing_key tsStamp tsIso payload)

-- publish_event: the whole body sits in try/except Exception, the except
-- branch only prints.  The outer Except is the caller's view: an error
-- value here would be an exception escaping to the caller.
def publish_event (t : PublishTransport) (exchange routing_key tsStamp tsIso payload : String) :
    Except String PublishEffect :=
  match publish_event_attempt t exchange routing_key tsStamp tsIso payload with
  | Except.ok env => Except.ok ⟨some env, none⟩
  | Except.error e => Except.ok ⟨none, some ("Error publishing event: " ++ e)⟩

-- =====================  Subscription delivery (lines 63-72)  =====================

-- The broker-facing acknowledgement actions available to the wrapper.
inductive AckAction where
  | ack (deliveryTag : Nat)
  | nack (deliveryTag : Nat) (requeue : Bool)
deriving Repr, DecidableEq

-- One delivered message: its delivery tag and raw body.
structure Delivery where
  deliveryTag : Nat
  body : String
deriving Repr, DecidableEq

-- The wrapper closure registered as on_message_callback: json.loads then
-- the subscriber callback, ack on success; any raise inside the try lands
-- in basic_nack(requeue=False).  parse models json.loads (none = raises),
-- handler models callback (error = raises).
def subscriptionWrapper (parse : String → Option String) (handler : String → Except String Unit)
    (d : Delivery) : AckAction :=
  match parse d.body with
  | none => AckAction.nack d.deliveryTag false
  | some event =>
    match handler event with
    | Except.ok _ => AckAction.ack d.deliveryTag
    | Except.error _ => AckAction.nack d.deliveryTag false

-- Broker queue semantics for one consumer: messages are handed over in FIFO
-- order; ack and nack(requeue=False) both remove the message, while
-- nack(requeue=True) would put it back at the end of the queue.  The result
-- is the attempt trace: each message the handler was invoked on, with the
-- acknowledgement the wrapper returned for it.  Fuel bounds the loop since
-- requeueing could otherwise run forever.
def runQueue (handle : Delivery → AckAction) : Nat → List Delivery → List (Delivery × AckAction)
  | 0, _ => []
  | _, [] => []
  | Nat.succ fuel, d :: rest =>
    match handle d with
    | AckAction.nack t true => (d, AckAction.nack t true) :: runQueue handle fuel (rest ++ [d])
    | a => (d, a) :: runQueue handle fuel rest

-- =====================  Aggregate status probe (lines 47-75)  =====================

inductive ServiceName where
  | auth
  | payment
  | financing
  | insurance
deriving Repr, DecidableEq, BEq

-- Fate of one GET {service_url}/stats probe: a raised exception (carrying
-- str(e)), or a response with its status and the result of response.json()
-- (Except.error = the parse raises, caught by the same except branch).
inductive ProbeOutcome where
  | raise (msg : String)
  | response (status : Nat) (jsonBody : Except String String)
deriving Repr

-- The value stored in stats["services"][name].
inductive SlotValue where
  | stats (json : String)
  | error (msg : String)
deriving Repr, DecidableEq

-- One iteration of the probe loop in read_root.
def probeSlot (o : ProbeOutcome) : SlotValue :=
  match o with
  | ProbeOutcome.raise m => SlotValue.error m
  | ProbeOutcome.response st js =>
    if st = 200 then
      match js with
      | Except.ok j => SlotValue.stats j
      | Except.error m => SlotValue.error m
    else SlotValue.error ("HTTP " ++ Nat.repr st)

-- read_root: probes the four services in order and returns normally with
-- the per-service slots; the route status of the returned dict is 200.
def read_root (probe : ServiceName → ProbeOutcome) : Nat × List (ServiceName × SlotValue) :=
  (200, [ServiceName.auth, ServiceName.payment, ServiceName.financing, ServiceName.insurance].map
    (fun s => (s, probeSlot (probe s))))

-- =====================  Spec-side and scenario definitions  =====================

-- Modelled from the spec's words for the refinement comparison in C5: the
-- ordered route table (prefix and backend, configuration order) and the
-- first-match rule "path starts with prefix + '/'", stripping the matched
-- prefix and its slash.
def specRouteTable : List (Route × String) :=
  [ (Route.auth, "auth")
  , (Route.payment, "payment")
  , (Route.financing, "financing")
  , (Route.insurance, "insurance") ]

def specFirstMatch (path : String) : Option (Route × String) :=
  (specRouteTable.find? (fun e => strStartsWith path (e.2 ++ "/"))).map
    (fun e => (e.1, strDrop path (e.2.length + 1)))

-- A subscriber callback for the C4 witness scenario: it throws on the
-- event "M" and succeeds on anything else.
def demoHandler : String → Except String Unit :=
  fun s => if s = "M" then Except.error "boom" else Except.ok ()

-- Probe outcomes for the C9 witness scenario: payment is unreachable,
-- financing answers 503, the other two report statistics.
def demoProbe : ServiceName → ProbeOutcome :=
  fun s => match s with
  | ServiceName.payment => ProbeOutcome.raise "Connection refused"
  | ServiceName.financing => ProbeOutcome.response 503 (Except.error "boom")
  | _ => ProbeOutcome.response 200 (Except.ok "total: 3")


-- =====================  Helper lemmas  =====================

-- When no route prefix matches, the routing chain ends in the 404 branch,
-- whatever the claims are.
theorem routeAndForward_404 (path : String) (h : routeOf path = none) (u : Option Claims) :
    routeAndForward u path = GatewayResult.response 404 "Service not found" := by
  unfold routeOf at h
  unfold routeAndForward
  split_ifs at h ⊢
  simp_all

-- When the path lies under "auth/", the routing chain forwards with no
-- role check, whatever the claims are.
theorem routeAndForward_auth (path : String) (h : strStartsWith path "auth/" = true)
    (u : Option Claims) :
    routeAndForward u path = GatewayResult.forward Route.auth (strDrop path 5) := by
  unfold routeAndForward
  rw [if_pos h]

-- The delivery wrapper never asks the broker to requeue.
theorem subscriptionWrapper_no_requeue (parse : String → Option String)
    (handler : String → Except String Unit) (d : Delivery) (t : Nat) :
    subscriptionWrapper parse handler d ≠ AckAction.nack t true := by
  unfold subscriptionWrapper
  cases hp : parse d.body with
  | none => simp
  | some e => cases hh : handler e <;> simp [hh]

-- A handler that never requeues consumes the queue in order, touching each
-- delivery exactly once.
theorem runQueue_once (handle : Delivery → AckAction)
    (hno : ∀ d t, handle d ≠ AckAction.nack t true) :
    ∀ (queue : List Delivery) (fuel : Nat), queue.length ≤ fuel →
      runQueue handle fuel queue = queue.map (fun d => (d, handle d)) := by
  intro queue
  induction queue with
  | nil =>
    intro fuel h
    cases fuel with
    | zero => rfl
    | succ f => rfl
  | cons d rest ih =>
    intro fuel h
    cases fuel with
    | zero => simp at h
    | succ f =>
      have hrest : rest.length ≤ f := by simp at h; omega
      cases hd : handle d with
      | ack t => simp [runQueue, hd, ih f hrest]
      | nack t rq =>
        cases rq with
        | false => simp [runQueue, hd, ih f hrest]
        | true => exact absurd hd (hno d t)

-- =====================  Claim C1  =====================

/-- C1 counterexample: the path "unknown" matches no configured route
prefix, is not "health" and is not the root, yet a request for it with no
Authorization header is answered 401 "Authentication required", not 404
"Service not found" — the authentication gate runs before route
resolution, so the claimed 404 is not returned regardless of the
Authorization header. -/
theorem gateway_unmatched_no_credential_401 :
    routeOf (normalizePath "unknown") = none ∧
    normalizePath "unknown" ≠ "health" ∧
    normalizePath "unknown" ≠ "" ∧
    gateway_handler (fun _ => none) ⟨"unknown", none⟩
      = GatewayResult.response 401 "Authentication required" ∧
    gateway_handler (fun _ => none) ⟨"unknown", none⟩
      ≠ GatewayResult.response 404 "Service not found" := by
  refine ⟨by decide, by decide, by decide, by decide, by decide⟩

/-- C1 (amended): for every request whose normalized path matches no
configured route prefix and is not "health", the Gateway returns 404 with
detail "Service not found" provided the request either carries a Bearer
credential whose token verifies, or lies on the public allow-list; an
unauthenticated request to such a non-public path gets 401 instead. -/
theorem gateway_unmatched_404 (verify : String → Option Claims) (p a : String) (c : Claims)
    (hroute : routeOf (normalizePath p) = none)
    (hh : normalizePath p ≠ "health")
    (hcred : strStartsWith a "Bearer " = true)
    (hverify : verify (extractBearerToken a) = some c) :
    gateway_handler verify ⟨p, some a⟩ = GatewayResult.response 404 "Service not found" := by
  have h404 := routeAndForward_404 (normalizePath p) hroute
  by_cases hpub : isPublicEndpointMatch (normalizePath p) = false
  · simp [gateway_handler, hh, hpub, hcred, hverify, h404]
  · simp [gateway_handler, hh, hpub, hcred, hverify, h404]

/-- C1 witness: the amended theorem applied to the path "unknown" with a
valid bearer token. -/
theorem gateway_unmatched_404_witness :
    gateway_handler (fun _ => some ⟨1, "a@b", "admin"⟩) ⟨"unknown", some "Bearer tok"⟩
      = GatewayResult.response 404 "Service not found" :=
  gateway_unmatched_404 (fun _ => some ⟨1, "a@b", "admin"⟩) "unknown" "Bearer tok"
    ⟨1, "a@b", "admin"⟩ (by decide) (by decide) (by decide) rfl

-- =====================  Claim C2  =====================

/-- C2 counterexample: "payment/stats" is on the PUBLIC_ENDPOINTS
allow-list, its remaining path "stats" is neither "" nor "health", and the
request carries no credential — the spec's rule demands 401
"Authentication required", but the Gateway skips the authentication gate
for allow-listed paths and the role check then denies with 403
"Insufficient permissions". -/
theorem gateway_public_stats_403_not_401 :
    isPublicEndpointMatch (normalizePath "payment/stats") = true ∧
    strDrop (normalizePath "payment/stats") 8 = "stats" ∧
    gateway_handler (fun _ => none) ⟨"payment/stats", none⟩
      = GatewayResult.response 403 "Insufficient permissions" ∧
    gateway_handler (fun _ => none) ⟨"payment/stats", none⟩
      ≠ GatewayResult.response 401 "Authentication required" := by
  refine ⟨by decide, by decide, by decide, by decide⟩

/-- C2 (amended): every request presenting no valid claims whose full
normalized path is not on the PUBLIC_ENDPOINTS allow-list (and is not
"health") is denied 401 — with detail "Authentication required" when the
Authorization header is absent or not of Bearer form, and with detail
"Invalid token" when a well-formed Bearer token fails verification; the
allow-listed stats paths under payment, financing and insurance skip that
gate, reach the role check without claims, and are denied 403
"Insufficient permissions" instead. -/
theorem gateway_no_claims_401 (verify : String → Option Claims) (p : String)
    (hh : normalizePath p ≠ "health")
    (hpub : isPublicEndpointMatch (normalizePath p) = false) :
    gateway_handler verify ⟨p, none⟩ = GatewayResult.response 401 "Authentication required" ∧
    (∀ a, strStartsWith a "Bearer " = false →
      gateway_handler verify ⟨p, some a⟩
        = GatewayResult.response 401 "Authentication required") ∧
    (∀ a, strStartsWith a "Bearer " = true → verify (extractBearerToken a) = none →
      gateway_handler verify ⟨p, some a⟩ = GatewayResult.response 401 "Invalid token") ∧
    gateway_handler verify ⟨"payment/stats", none⟩
      = GatewayResult.response 403 "Insufficient permissions" ∧
    gateway_handler verify ⟨"financing/stats", none⟩
      = GatewayResult.response 403 "Insufficient permissions" ∧
    gateway_handler verify ⟨"insurance/stats", none⟩
      = GatewayResult.response 403 "Insufficient permissions" := by
  refine ⟨?_, ?_, ?_, rfl, rfl, rfl⟩
  · simp [gateway_handler, hh, hpub]
  · intro a ha
    simp [gateway_handler, hh, hpub, ha]
  · intro a ha hv
    simp [gateway_handler, hh, hpub, ha, hv]

/-- C2 witness: the amended theorem applied to the protected path
"payment/intents" with, in turn, no Authorization header, a non-Bearer
header, and a Bearer token that fails verification. -/
theorem gateway_no_claims_401_witness :
    gateway_handler (fun _ => none) ⟨"payment/intents", none⟩
      = GatewayResult.response 401 "Authentication required" ∧
    gateway_handler (fun _ => none) ⟨"payment/intents", some "Basic xyz"⟩
      = GatewayResult.response 401 "Authentication required" ∧
    gateway_handler (fun _ => none) ⟨"payment/intents", some "Bearer bad"⟩
      = GatewayResult.response 401 "Invalid token" ∧
    gateway_handler (fun _ => none) ⟨"payment/stats", none⟩
      = GatewayResult.response 403 "Insufficient permissions" := by
  have h := gateway_no_claims_401 (fun _ => none) "payment/intents" (by decide) (by decide)
  exact ⟨h.1, h.2.1 "Basic xyz" (by decide), h.2.2.1 "Bearer bad" (by decide) rfl,
    h.2.2.2.1⟩

-- =====================  Claim C7  =====================

/-- C7: for every request to a protected (route-matched, non-public) path
that carries no Authorization header, the Gateway answers 401
"Authentication required" and the forwarding step is never reached, so the
downstream backend observes zero calls for that request. -/
theorem gateway_protected_no_header_401_no_forward (verify : String → Option Claims)
    (p : String) (rf : Route × String)
    (hroute : routeOf (normalizePath p) = some rf)
    (hpub : isPublicEndpointMatch (normalizePath p) = false) :
    gateway_handler verify ⟨p, none⟩ = GatewayResult.response 401 "Authentication required" ∧
    ∀ r fp, gateway_handler verify ⟨p, none⟩ ≠ GatewayResult.forward r fp := by
  have hh : normalizePath p ≠ "health" := by
    intro h
    rw [h] at hroute
    rw [show routeOf "health" = none from by decide] at hroute
    exact Option.noConfusion hroute
  have hmain : gateway_handler verify ⟨p, none⟩
      = GatewayResult.response 401 "Authentication required" := by
    simp [gateway_handler, hh, hpub]
  exact ⟨hmain, fun r fp hcon => by rw [hmain] at hcon; exact GatewayResult.noConfusion hcon⟩

/-- C7 witness: the theorem applied to the protected path
"payment/intents" with no Authorization header. -/
theorem gateway_protected_no_header_401_no_forward_witness :
    gateway_handler (fun _ => none) ⟨"payment/intents", none⟩
      = GatewayResult.response 401 "Authentication required" ∧
    ∀ r fp, gateway_handler (fun _ => none) ⟨"payment/intents", none⟩
      ≠ GatewayResult.forward r fp :=
  gateway_protected_no_header_401_no_forward (fun _ => none) "payment/intents"
    (Route.payment, "intents") (by decide) (by decide)

-- =====================  Claim C5  =====================

/-- C5 counterexample: the normalized path "payment" is exactly a
configured prefix, yet the routing chain resolves nothing for it — the
code only tests path.startswith(prefix + "/"), so a bare prefix request
with a valid credential is answered 404 "Service not found" rather than
forwarded to the payment backend with empty remaining path. -/
theorem route_bare_prefix_not_found :
    routeOf "payment" = none ∧
    gateway_handler (fun _ => some ⟨7, "m@x", "manager"⟩) ⟨"payment", some "Bearer tok"⟩
      = GatewayResult.response 404 "Service not found" ∧
    gateway_handler (fun _ => some ⟨7, "m@x", "manager"⟩) ⟨"payment", some "Bearer tok"⟩
      ≠ GatewayResult.forward Route.payment "" := by
  refine ⟨by decide, by decide, by decide⟩

/-- C5 (amended): for every normalized path, the Router selects the first
prefix in the fixed configuration order for which the path starts with
prefix + "/" — equality with the bare prefix alone does not match, so a
path exactly equal to a configured prefix (for example "payment") resolves
to no backend. -/
theorem route_first_match :
    (∀ path, routeOf path = specFirstMatch path) ∧
    routeOf "payment" = none := by
  refine ⟨?_, by decide⟩
  intro path
  have e1 : ("auth" ++ "/" : String) = "auth/" := rfl
  have e2 : ("payment" ++ "/" : String) = "payment/" := rfl
  have e3 : ("financing" ++ "/" : String) = "financing/" := rfl
  have e4 : ("insurance" ++ "/" : String) = "insurance/" := rfl
  have l1 : ("auth".length + 1) = 5 := rfl
  have l2 : ("payment".length + 1) = 8 := rfl
  have l3 : ("financing".length + 1) = 10 := rfl
  have l4 : ("insurance".length + 1) = 10 := rfl
  cases h1 : strStartsWith path "auth/" <;>
    cases h2 : strStartsWith path "payment/" <;>
      cases h3 : strStartsWith path "financing/" <;>
        cases h4 : strStartsWith path "insurance/" <;>
          simp [routeOf, specFirstMatch, specRouteTable, e1, e2, e3, e4, l1, l2, l3, l4,
            h1, h2, h3, h4]

-- =====================  Claim C3  =====================

/-- C3: the forwarding step maps the transport outcome exactly as
specified — a timeout to 504 "Service timeout", a transport failure to 502
"Service unavailable: cause", any other failure to 500 "Internal error:
cause" — and relays a downstream response with its own status, as the
structured payload when the content type starts with "application/json"
and as raw text otherwise. -/
theorem forward_failure_mapping :
    forwardResult DownstreamOutcome.timeout
      = ⟨504, RelayBody.detail "Service timeout"⟩ ∧
    (∀ c, forwardResult (DownstreamOutcome.requestError c)
      = ⟨502, RelayBody.detail ("Service unavailable: " ++ c)⟩) ∧
    (∀ c, forwardResult (DownstreamOutcome.otherError c)
      = ⟨500, RelayBody.detail ("Internal error: " ++ c)⟩) ∧
    (∀ st ct txt j, strStartsWith ct "application/json" = true →
      forwardResult (DownstreamOutcome.response st ct txt (Except.ok j))
        = ⟨st, RelayBody.structured j⟩) ∧
    (∀ st ct txt js, strStartsWith ct "application/json" = false →
      forwardResult (DownstreamOutcome.response st ct txt js)
        = ⟨st, RelayBody.rawText txt⟩) := by
  refine ⟨rfl, fun c => rfl, fun c => rfl, ?_, ?_⟩
  · intro st ct txt j h
    simp [forwardResult, h]
  · intro st ct txt js h
    simp [forwardResult, h]

/-- C3 witness: the mapping evaluated on a JSON response and on a plain
text response. -/
theorem forward_failure_mapping_witness :
    forwardResult (DownstreamOutcome.response 201 "application/json; charset=utf-8"
        "raw" (Except.ok "payload"))
      = ⟨201, RelayBody.structured "payload"⟩ ∧
    forwardResult (DownstreamOutcome.response 404 "text/plain" "nope" (Except.error "x"))
      = ⟨404, RelayBody.rawText "nope"⟩ :=
  ⟨forward_failure_mapping.2.2.2.1 201 "application/json; charset=utf-8" "raw" "payload"
      (by decide),
   forward_failure_mapping.2.2.2.2 404 "text/plain" "nope" (Except.error "x") (by decide)⟩

-- =====================  Claim C10  =====================

/-- C10: the public allow-list contains the exact auth paths
auth/register, auth/token and auth/refresh, and every request whose
normalized path is one of them, or extends one of them with a "/"
segment, is forwarded to the auth backend without ever taking the 401
authentication branch — registration, login and token refresh need no
credential at the gateway. -/
theorem public_auth_paths_never_401 (verify : String → Option Claims)
    (a : Option String) (p base : String)
    (hbase : base ∈ (["auth/register", "auth/token", "auth/refresh"] : List String))
    (hmatch : normalizePath p = base ∨
      strStartsWith (normalizePath p) (base ++ "/") = true) :
    ("auth/register" ∈ PUBLIC_ENDPOINTS ∧ "auth/token" ∈ PUBLIC_ENDPOINTS ∧
      "auth/refresh" ∈ PUBLIC_ENDPOINTS) ∧
    gateway_handler verify ⟨p, a⟩
      = GatewayResult.forward Route.auth (strDrop (normalizePath p) 5) ∧
    gateway_handler verify ⟨p, a⟩ ≠ GatewayResult.response 401 "Authentication required" ∧
    gateway_handler verify ⟨p, a⟩ ≠ GatewayResult.response 401 "Invalid token" := by
  simp only [List.mem_cons, List.not_mem_nil, or_false] at hbase
  have hpre : strStartsWith (normalizePath p) "auth/" = true := by
    rcases hmatch with he | hs
    · rcases hbase with rfl | rfl | rfl <;> rw [he] <;> decide
    · rw [strStartsWith, List.isPrefixOf_iff_prefix] at hs ⊢
      refine List.IsPrefix.trans ?_ hs
      rcases hbase with rfl | rfl | rfl <;> decide
  have hh : normalizePath p ≠ "health" := by
    intro h
    rw [h] at hpre
    exact absurd hpre (by decide)
  have hpub : isPublicEndpointMatch (normalizePath p) = true := by
    rw [isPublicEndpointMatch, List.any_eq_true]
    refine ⟨base, ?_, ?_⟩
    · rcases hbase with rfl | rfl | rfl <;> decide
    · rcases hmatch with he | hs
      · simp [he]
      · simp [hs]
  have hmain : gateway_handler verify ⟨p, a⟩
      = GatewayResult.forward Route.auth (strDrop (normalizePath p) 5) := by
    have hfw := fun u => routeAndForward_auth (normalizePath p) hpre u
    simp [gateway_handler, hh, hpub, hfw]
  refine ⟨⟨by decide, by decide, by decide⟩, hmain, ?_, ?_⟩
  · rw [hmain]; exact fun hcon => GatewayResult.noConfusion hcon
  · rw [hmain]; exact fun hcon => GatewayResult.noConfusion hcon

/-- C10 witness: the theorem applied to an unauthenticated request for
"auth/token". -/
theorem public_auth_paths_never_401_witness :
    ("auth/register" ∈ PUBLIC_ENDPOINTS ∧ "auth/token" ∈ PUBLIC_ENDPOINTS ∧
      "auth/refresh" ∈ PUBLIC_ENDPOINTS) ∧
    gateway_handler (fun _ => none) ⟨"auth/token", none⟩
      = GatewayResult.forward Route.auth (strDrop (normalizePath "auth/token") 5) ∧
    gateway_handler (fun _ => none) ⟨"auth/token", none⟩
      ≠ GatewayResult.response 401 "Authentication required" ∧
    gateway_handler (fun _ => none) ⟨"auth/token", none⟩
      ≠ GatewayResult.response 401 "Invalid token" :=
  public_auth_paths_never_401 (fun _ => none) none "auth/token" "auth/token"
    (by decide) (Or.inl (by decide))

-- =====================  Claim C4  =====================

/-- C4: the delivery wrapper acknowledges a message exactly when the
handler completes successfully on its parsed event, negatively
acknowledges every failure (parse or handler) without requeue, and under
the broker's queue semantics each message of the queue is therefore
attempted exactly once, in order — so a failing message is not
redelivered and a subsequent distinct message is still delivered and
processed. -/
theorem subscription_ack_discipline (parse : String → Option String)
    (handler : String → Except String Unit) (queue : List Delivery) (fuel : Nat)
    (hfuel : queue.length ≤ fuel) :
    runQueue (subscriptionWrapper parse handler) fuel queue
      = queue.map (fun d => (d, subscriptionWrapper parse handler d)) ∧
    (∀ d t, subscriptionWrapper parse handler d ≠ AckAction.nack t true) ∧
    (∀ d e, parse d.body = some e →
      (subscriptionWrapper parse handler d = AckAction.ack d.deliveryTag ↔
        handler e = Except.ok ())) ∧
    (∀ d e err, parse d.body = some e → handler e = Except.error err →
      subscriptionWrapper parse handler d = AckAction.nack d.deliveryTag false) ∧
    (∀ d, parse d.body = none →
      subscriptionWrapper parse handler d = AckAction.nack d.deliveryTag false) := by
  refine ⟨runQueue_once _ (subscriptionWrapper_no_requeue parse handler) queue fuel hfuel,
    subscriptionWrapper_no_requeue parse handler, ?_, ?_, ?_⟩
  · intro d e hp
    constructor
    · intro hack
      cases hh : handler e with
      | ok u => rfl
      | error err => simp [subscriptionWrapper, hp, hh] at hack
    · intro hok
      simp [subscriptionWrapper, hp, hok]
  · intro d e err hp hh
    simp [subscriptionWrapper, hp, hh]
  · intro d hp
    simp [subscriptionWrapper, hp]

/-- C4 witness: the theorem applied to a two-message queue where the
handler throws on the first message — the trace shows the first message
nacked without requeue and the second still delivered and acknowledged. -/
theorem subscription_ack_discipline_witness :
    runQueue (subscriptionWrapper some demoHandler) 2 [⟨1, "M"⟩, ⟨2, "M2"⟩]
      = [(⟨1, "M"⟩, AckAction.nack 1 false), (⟨2, "M2"⟩, AckAction.ack 2)] := by
  have h := (subscription_ack_discipline some demoHandler [⟨1, "M"⟩, ⟨2, "M2"⟩] 2
    (by decide)).1
  rw [h]
  decide

-- =====================  Claim C6  =====================

/-- C6 counterexample: two distinct, completed publish calls — different
payloads, same exchange and routing key — that observe the same clock
reading transmit envelopes with the same event id: the id is just
exchange, routing key and timestamp glued together, so nothing makes it
unique across the lifetime of the bus. -/
theorem publish_event_id_collision :
    publish_event PublishTransport.delivered "autosalon" "payment.succeeded"
        "1730000000.0" "2024-10-27T03:33:20" "first"
      = Except.ok ⟨some (mkEnvelope "autosalon" "payment.succeeded"
          "1730000000.0" "2024-10-27T03:33:20" "first"), none⟩ ∧
    publish_event PublishTransport.delivered "autosalon" "payment.succeeded"
        "1730000000.0" "2024-10-27T03:33:20" "second"
      = Except.ok ⟨some (mkEnvelope "autosalon" "payment.succeeded"
          "1730000000.0" "2024-10-27T03:33:20" "second"), none⟩ ∧
    mkEnvelope "autosalon" "payment.succeeded" "1730000000.0" "2024-10-27T03:33:20" "first"
      ≠ mkEnvelope "autosalon" "payment.succeeded" "1730000000.0" "2024-10-27T03:33:20"
        "second" ∧
    (mkEnvelope "autosalon" "payment.succeeded" "1730000000.0" "2024-10-27T03:33:20"
        "first").event_id
      = (mkEnvelope "autosalon" "payment.succeeded" "1730000000.0" "2024-10-27T03:33:20"
        "second").event_id :=
  ⟨rfl, rfl, by decide, rfl⟩

/-- C6 (amended): event ids of two publish calls on the same exchange and
routing key are distinct exactly when the two calls observe distinct clock
timestamps — uniqueness rests on the clock, not on the bus; two publishes
within one clock reading collide. -/
theorem publish_event_id_distinct_timestamps (ex rk ts ts' iso iso' p p' : String)
    (h : ts ≠ ts') :
    (mkEnvelope ex rk ts iso p).event_id ≠ (mkEnvelope ex rk ts' iso' p').event_id := by
  simp only [mkEnvelope, mkEventId]
  intro hEq
  apply h
  have hd : (ex ++ "." ++ rk ++ "." ++ ts).data = (ex ++ "." ++ rk ++ "." ++ ts').data :=
    congrArg String.data hEq
  have hd2 : (ex ++ "." ++ rk ++ ".").data ++ ts.data
      = (ex ++ "." ++ rk ++ ".").data ++ ts'.data := by
    simpa [String.data_append, List.append_assoc] using hd
  have hts : ts.data = ts'.data := List.append_cancel_left hd2
  exact congrArg String.mk hts

/-- C6 witness: the amended theorem applied to two publishes one clock
tick apart. -/
theorem publish_event_id_distinct_timestamps_witness :
    (mkEnvelope "autosalon" "payment.succeeded" "1730000000.0" "i" "p").event_id
      ≠ (mkEnvelope "autosalon" "payment.succeeded" "1730000001.0" "i" "p").event_id :=
  publish_event_id_distinct_timestamps "autosalon" "payment.succeeded"
    "1730000000.0" "1730000001.0" "i" "i" "p" "p" (by decide)

-- =====================  Claim C8  =====================

/-- C8: publish_event returns normally to its caller for every transport
outcome — a connection failure, an exchange-declaration failure or a
publish failure is only logged while the publisher proceeds; no failure
propagates. -/
theorem publish_event_never_raises (t : PublishTransport)
    (ex rk ts iso p : String) :
    (publish_event t ex rk ts iso p).isOk = true ∧
    (∀ e, publish_event (PublishTransport.connectError e) ex rk ts iso p
      = Except.ok ⟨none, some ("Error publishing event: " ++ e)⟩) ∧
    (∀ e, publish_event (PublishTransport.declareError e) ex rk ts iso p
      = Except.ok ⟨none, some ("Error publishing event: " ++ e)⟩) ∧
    (∀ e, publish_event (PublishTransport.publishError e) ex rk ts iso p
      = Except.ok ⟨none, some ("Error publishing event: " ++ e)⟩) ∧
    publish_event PublishTransport.delivered ex rk ts iso p
      = Except.ok ⟨some (mkEnvelope ex rk ts iso p), none⟩ := by
  refine ⟨?_, fun e => rfl, fun e => rfl, fun e => rfl, rfl⟩
  cases t <;> rfl

-- =====================  Claim C9  =====================

/-- C9: for every combination of per-backend probe outcomes, the
aggregate root response has overall status 200 and one slot per backend in
the fixed order auth, payment, financing, insurance; a probe that raises
or returns a non-200 status yields an inline error value in its own slot,
while a 200 probe's slot carries its reported statistics — one backend's
failure never aborts the overall response or the other slots. -/
theorem read_root_isolates_failures (probe : ServiceName → ProbeOutcome) :
    (read_root probe).1 = 200 ∧
    (read_root probe).2.map Prod.fst
      = [ServiceName.auth, ServiceName.payment, ServiceName.financing,
          ServiceName.insurance] ∧
    (∀ s, (read_root probe).2.lookup s = some (probeSlot (probe s))) ∧
    (∀ s m, probe s = ProbeOutcome.raise m → probeSlot (probe s) = SlotValue.error m) ∧
    (∀ s st js, probe s = ProbeOutcome.response st js → st ≠ 200 →
      probeSlot (probe s) = SlotValue.error ("HTTP " ++ Nat.repr st)) ∧
    (∀ s j, probe s = ProbeOutcome.response 200 (Except.ok j) →
      probeSlot (probe s) = SlotValue.stats j) := by
  refine ⟨rfl, rfl, ?_, ?_, ?_, ?_⟩
  · intro s; cases s <;> rfl
  · intro s m hp; simp [probeSlot, hp]
  · intro s st js hp hne; simp [probeSlot, hp, hne]
  · intro s j hp; simp [probeSlot, hp]

/-- C9 witness: the theorem applied to a probe map with one unreachable
backend and one failing backend — their slots carry inline errors while
the others keep their statistics, under an overall 200. -/
theorem read_root_isolates_failures_witness :
    (read_root demoProbe).1 = 200 ∧
    (read_root demoProbe).2.lookup ServiceName.payment
      = some (SlotValue.error "Connection refused") ∧
    (read_root demoProbe).2.lookup ServiceName.financing
      = some (SlotValue.error ("HTTP " ++ Nat.repr 503)) ∧
    (read_root demoProbe).2.lookup ServiceName.auth
      = some (SlotValue.stats "total: 3") ∧
    (read_root demoProbe).2.lookup ServiceName.insurance
      = some (SlotValue.stats "total: 3") := by
  have h := read_root_isolates_failures demoProbe
  refine ⟨h.1, ?_, ?_, ?_, ?_⟩
  · rw [h.2.2.1 ServiceName.payment,
      h.2.2.2.1 ServiceName.payment "Connection refused" rfl]
  · rw [h.2.2.1 ServiceName.financing,
      h.2.2.2.2.1 ServiceName.financing 503 (Except.error "boom") rfl (by decide)]
  · rw [h.2.2.1 ServiceName.auth, h.2.2.2.2.2 ServiceName.auth "total: 3" rfl]
  · rw [h.2.2.1 ServiceName.insurance, h.2.2.2.2.2 ServiceName.insurance "total: 3" rfl]
